import Mathlib

/-!
Shallow embedding of decaf/scripts/jeffnet.py.

Arrays are modelled as shape metadata plus a total pixel function into the
rationals (the Python code computes in numpy floats; exact rational
arithmetic is the shallow embedding of those computations).  External
collaborators (the skimage resize and the translated network predictor) are
modelled as explicit function parameters; everything that the file itself
computes (channel handling, newshape, crops, flips, mean subtraction,
averaging, argsort and top-k slicing, error flow of the loader) is embedded
from the source.
-/

/-- A numpy image array: height, width, channel count, and a total pixel
function.  Pixels outside the declared bounds are irrelevant junk. -/
structure Img where
  h : Nat
  w : Nat
  c : Nat
  px : Nat → Nat → Nat → ℚ

instance : Inhabited Img := ⟨⟨0, 0, 0, fun _ _ _ => 0⟩⟩

/-- INPUT_DIM = 227 (jeffnet.py line 26). -/
def INPUT_DIM : Nat := 227

/-- The crop image[i0 : i0+INPUT_DIM, j0 : j0+INPUT_DIM] of a 256x256
image (axis 0 is the row or height axis, axis 1 the column or width axis). -/
def cropAt (image : Img) (i0 j0 : Nat) : Img :=
  ⟨INPUT_DIM, INPUT_DIM, image.c, fun i j k => image.px (i0 + i) (j0 + j) k⟩

/-- Reversal along axis 0 (the row or height axis): image[::-1, :].  This is
the flip used both by classify (line 133) and, per crop, by the assignment
images[5:] = images[:5, ::-1] in oversample (line 103), whose ::-1 acts on
axis 1 of the 4-D batch, i.e. the row axis of each crop. -/
def flipVertical (image : Img) : Img :=
  ⟨image.h, image.w, image.c, fun i j k => image.px (image.h - 1 - i) j k⟩

/-- JeffNet.oversample (jeffnet.py lines 73-104).  indices = [0, 256-227],
center = 14.  The loop over i in indices, j in indices fills crops 0..3 in
the order (0,0), (0,29), (29,0), (29,29); crop 4 is then overwritten with
the center crop; crops 5..9 are images[:5, ::-1], the axis-1 (row-axis)
reversal of crops 0..4. -/
def oversample (image : Img) (center_only : Bool) : List Img :=
  let indices : List Nat := [0, 256 - INPUT_DIM]
  let center : Nat := (256 - INPUT_DIM) / 2
  if center_only then
    [cropAt image center center]
  else
    let base : List Img :=
      [cropAt image (indices.get! 0) (indices.get! 0),
       cropAt image (indices.get! 0) (indices.get! 1),
       cropAt image (indices.get! 1) (indices.get! 0),
       cropAt image (indices.get! 1) (indices.get! 1),
       cropAt image center center]
    base ++ base.map flipVertical

/-- The width-axis mirror.  Modelled from the spec: the spec describes the
mirrored crops as flips along the width axis only; this definition exists
solely to compare that description with what oversample computes. -/
def mirrorWidthSpec (image : Img) : Img :=
  ⟨image.h, image.w, image.c, fun i j k => image.px i (image.w - 1 - j) k⟩

/-- The raw input to classify: either a 2-D grayscale array (ndim == 2) or a
3-D array with a channel axis. -/
inductive InputImage where
  | gray (h w : Nat) (px : Nat → Nat → ℚ)
  | multi (image : Img)

/-- Channel handling at the top of JeffNet.classify (lines 116-120): a 2-D
image is tiled to 3 identical channels; a 4-channel image keeps only its
first 3 channels; anything else is left untouched. -/
def channelAdjust : InputImage → Img
  | .gray h w px => ⟨h, w, 3, fun i j _ => px i j⟩
  | .multi image =>
      if image.c = 4 then ⟨image.h, image.w, 3, image.px⟩ else image

/-- The new (height, width) computed by classify (lines 122-126):
if height < width then (256, int(width * 256.0 / height + 0.5)) else
(int(height * 256.0 / width + 0.5), 256).  int() truncates, and the value is
nonnegative, so it is the floor. -/
def newshape (height width : Nat) : Nat × Nat :=
  if height < width then
    (256, (⌊(width * 256 : ℚ) / height + 1/2⌋).toNat)
  else
    ((⌊(height * 256 : ℚ) / width + 1/2⌋).toNat, 256)

/-- image *= 255 (line 130): skimage resize rescales into [0, 1), and the
code multiplies back to the 0-255 range. -/
def rescale255 (image : Img) : Img :=
  ⟨image.h, image.w, image.c, fun i j k => image.px i j k * 255⟩

/-- The center crop image[h_offset : h_offset+256, w_offset : w_offset+256]
with offset (dim - 256) / 2 (lines 134-136).  The resulting extent of a
Python slice a[o : o+256] with o ≥ 0 is min(len, o+256) - o. -/
def centerCrop256 (image : Img) : Img :=
  let h_offset := (image.h - 256) / 2
  let w_offset := (image.w - 256) / 2
  ⟨min image.h (h_offset + 256) - h_offset,
   min image.w (w_offset + 256) - w_offset,
   image.c,
   fun i j k => image.px (h_offset + i) (w_offset + j) k⟩

/-- Python exceptions relevant to this file: IOError and UnpicklingError
from loading, RuntimeError raised by __init__, and the ValueError numpy
raises when an in-place operation cannot broadcast. -/
inductive PyErr where
  | ioError
  | unpicklingError
  | runtimeError (msg : String)
  | valueError
  deriving DecidableEq

/-- image -= self._data_mean (line 138).  This is a numpy in-place
subtraction: it succeeds exactly when data_mean broadcasts to the shape of
image (each data_mean dimension equals the image dimension or is 1, a
size-1 dimension being repeated), and otherwise raises a ValueError
because the broadcast result cannot be stored back into image. -/
def subtractMean (image data_mean : Img) : Except PyErr Img :=
  if (data_mean.h = image.h ∨ data_mean.h = 1) ∧
     (data_mean.w = image.w ∨ data_mean.w = 1) ∧
     (data_mean.c = image.c ∨ data_mean.c = 1) then
    .ok ⟨image.h, image.w, image.c,
      fun i j k => image.px i j k -
        data_mean.px (if data_mean.h = 1 then 0 else i)
          (if data_mean.w = 1 then 0 else j)
          (if data_mean.c = 1 then 0 else k)⟩
  else
    .error .valueError

/-- The shape of the image a fallible pipeline returned, if it returned
one. -/
def exceptShape : Except PyErr Img → Option (Nat × Nat × Nat)
  | .ok image => some (image.h, image.w, image.c)
  | .error _ => none

/-- A resize function is shape-correct when its output has exactly the
requested spatial shape and the channel count of its input.  This is the
contract of the external skimage.transform.resize collaborator. -/
def ResizeSpec (R : Img → Nat × Nat → Img) : Prop :=
  ∀ image s, (R image s).h = s.1 ∧ (R image s).w = s.2 ∧ (R image s).c = image.c

/-- A concrete shape-correct stand-in for skimage.transform.resize (nearest
neighbour, output scaled into the unit range), used only to instantiate
theorems at concrete inputs. -/
def resizeNN (image : Img) (s : Nat × Nat) : Img :=
  ⟨s.1, s.2, image.c,
   fun i j k => image.px (i * image.h / s.1) (j * image.w / s.2) k * (1/256)⟩

/-- The preprocessing pipeline of JeffNet.classify (lines 116-138): channel
handling, aspect-preserving resize to newshape, rescale by 255, the
_JEFFNET_FLIP vertical flip, the 256x256 center crop, and the in-place
mean subtraction, which can raise a ValueError when the shapes do not
broadcast.  The resize collaborator R is a parameter. -/
def classifyPreprocess (R : Img → Nat × Nat → Img) (data_mean : Img)
    (input : InputImage) : Except PyErr Img :=
  let image := channelAdjust input
  let image := R image (newshape image.h image.w)
  let image := rescale255 image
  let image := flipVertical image
  let image := centerCrop256 image
  subtractMean image data_mean

/-- predictions.mean(0) (line 142): the elementwise mean across the crop
axis of an N x 1000 score batch. -/
def aggregate (predictions : List (List ℚ)) : List ℚ :=
  (List.range predictions.head!.length).map
    (fun j => (predictions.map (fun row => row.get! j)).sum /
      (predictions.length : ℚ))

/-- JeffNet.classify (lines 106-142), with the external predictor and resize
passed as parameters: preprocess (which can raise), oversample, predict,
average. -/
def classify (predict : List Img → List (List ℚ))
    (R : Img → Nat × Nat → Img) (data_mean : Img)
    (input : InputImage) (center_only : Bool) : Except PyErr (List ℚ) :=
  match classifyPreprocess R data_mean input with
  | .error e => .error e
  | .ok image => .ok (aggregate (predict (oversample image center_only)))

/-- scores.argsort() (line 154): a list of the indices 0..len-1 ordered so
that the corresponding scores are ascending. -/
def argsort (scores : List ℚ) : List Nat :=
  (List.range scores.length).mergeSort
    (fun i j => decide (scores.get! i ≤ scores.get! j))

/-- JeffNet.top_k_prediction (lines 144-156).  The Python slice
indices[:-(k+1):-1] walks from the last element down, stopping before index
len-1-k; for every k ≥ 0 (clamping included) that is exactly the first k
elements of the reversed list. -/
def top_k_prediction (label_names : List String) (scores : List ℚ)
    (k : Nat) : List Nat × List String :=
  let indices := (argsort scores).reverse.take k
  (indices, indices.map (fun i => label_names.get! i))

/-- What opening and unpickling one source can encounter: the file is
missing (open raises IOError), the data is corrupt (pickle.load raises an
UnpicklingError), or deserialization succeeds. -/
inductive LoadSource (α : Type) where
  | missingFile
  | corruptData
  | ok (val : α)

/-- pickle.load(open(f)): IOError on a missing file, UnpicklingError on
corrupt data, the value otherwise. -/
def pickleLoad {α : Type} : LoadSource α → Except PyErr α
  | .missingFile => .error .ioError
  | .corruptData => .error .unpicklingError
  | .ok v => .ok v

/-- The meta blob: label_names and the raw data mean. -/
structure MetaBlob (M : Type) where
  label_names : List String
  data_mean : M

/-- The constructed model state: translated network, label names, and the
converted mean image. -/
structure Model (N : Type) where
  net : N
  label_names : List String
  data_mean : Img

/-- JeffNet.__init__ (lines 30-57).  The try block loads the two pickles in
order (net first); except IOError re-raises as
RuntimeError(Cannot find JeffNet files.); any other exception propagates
unchanged.  On success the external translator builds the network and the
mean image and the model is returned.  The translator functions are
parameters. -/
def jeffnetInit {CN N M : Type} (translate_cuda_network : CN → N)
    (img_cudaconv_to_decaf : M → Img)
    (netSrc : LoadSource CN) (metaSrc : LoadSource (MetaBlob M)) :
    Except PyErr (Model N) :=
  let loaded : Except PyErr (CN × MetaBlob M) :=
    match pickleLoad netSrc with
    | .error e => .error e
    | .ok cuda_jeffnet =>
        match pickleLoad metaSrc with
        | .error e => .error e
        | .ok meta => .ok (cuda_jeffnet, meta)
  match loaded with
  | .error .ioError => .error (.runtimeError "Cannot find JeffNet files.")
  | .error e => .error e
  | .ok (cuda_jeffnet, meta) =>
      .ok { net := translate_cuda_network cuda_jeffnet,
            label_names := meta.label_names,
            data_mean := img_cudaconv_to_decaf meta.data_mean }

/-- A concrete 256x256x3 image whose pixel value is its row index. -/
def rampImg : Img := ⟨256, 256, 3, fun i _ _ => (i : ℚ)⟩

/-- A concrete 256x256 image with a single channel axis of extent 1. -/
def singleChannelImg : Img := ⟨256, 256, 1, fun _ _ _ => 0⟩

/-- A concrete all-zero mean image. -/
def zeroMean : Img := ⟨256, 256, 3, fun _ _ _ => 0⟩

/-- A concrete list of 1000 label names. -/
def labels1000 : List String := (List.range 1000).map (fun i => toString i)

/-- A concrete 1000-element score vector. -/
def scores1000 : List ℚ := (List.range 1000).map Nat.cast

/-- C10: the single crop returned with center_only = true is exactly crop
index 4 of the 10-crop batch: both are the unmirrored center crop at offset
(256 - 227) / 2 = 14 on each axis. -/
theorem oversample_center_only_eq_crop4 (image : Img) :
    (oversample image true).get! 0 = (oversample image false).get! 4 ∧
    (oversample image true).length = 1 ∧
    (oversample image true).get! 0 = cropAt image 14 14 ∧
    (256 - INPUT_DIM) / 2 = 14 :=
  ⟨rfl, rfl, rfl, rfl⟩

/-- C6: on a 256x256x3 canonical image, oversample returns 1 crop when
center_only is true (the center crop at offset 14, unmirrored) and 10 crops
when center_only is false, each crop of shape 227x227x3. -/
theorem oversample_shapes (image : Img) (hh : image.h = 256)
    (hw : image.w = 256) (hc : image.c = 3) :
    (oversample image true).length = 1 ∧
    (oversample image false).length = 10 ∧
    oversample image true = [cropAt image 14 14] ∧
    (∀ x ∈ oversample image true, x.h = 227 ∧ x.w = 227 ∧ x.c = 3) ∧
    (∀ x ∈ oversample image false, x.h = 227 ∧ x.w = 227 ∧ x.c = 3) := by
  refine ⟨rfl, rfl, rfl, ?_, ?_⟩
  · intro x hx
    rw [show oversample image true = [cropAt image 14 14] from rfl] at hx
    simp only [List.mem_cons, List.not_mem_nil, or_false] at hx
    rcases hx with rfl
    exact ⟨rfl, rfl, hc⟩
  · intro x hx
    rw [show oversample image false =
        [cropAt image 0 0, cropAt image 0 29, cropAt image 29 0,
         cropAt image 29 29, cropAt image 14 14,
         flipVertical (cropAt image 0 0), flipVertical (cropAt image 0 29),
         flipVertical (cropAt image 29 0), flipVertical (cropAt image 29 29),
         flipVertical (cropAt image 14 14)] from rfl] at hx
    simp only [List.mem_cons, List.not_mem_nil, or_false] at hx
    rcases hx with rfl | rfl | rfl | rfl | rfl | rfl | rfl | rfl | rfl | rfl <;>
      exact ⟨rfl, rfl, hc⟩

/-- C6 witness at a concrete 256x256x3 image. -/
theorem oversample_shapes_witness :
    (oversample rampImg true).length = 1 ∧ (oversample rampImg false).length = 10 :=
  ⟨(oversample_shapes rampImg rfl rfl rfl).1, (oversample_shapes rampImg rfl rfl rfl).2.1⟩

/-- C2 counterexample: on the concrete image whose pixel value is its row
index, mirrored crop 5 is NOT the width-axis mirror of crop 0: at pixel
(0,0,0) crop 5 holds row 226 (value 226) while the width mirror of crop 0
holds row 0 (value 0). -/
theorem oversample_mirror_not_width :
    (oversample rampImg false).get! 5 ≠
      mirrorWidthSpec ((oversample rampImg false).get! 0) := by
  intro hEq
  have h1 : ((oversample rampImg false).get! 5).px 0 0 0 =
      (mirrorWidthSpec ((oversample rampImg false).get! 0)).px 0 0 0 := by
    rw [hEq]
  have h2 : ((oversample rampImg false).get! 5).px 0 0 0 = 226 := rfl
  have h3 : (mirrorWidthSpec ((oversample rampImg false).get! 0)).px 0 0 0 = 0 := rfl
  rw [h2, h3] at h1
  norm_num at h1

/-- C2 amended: for a 256x256x3 image the 10 crops come in the order
top-left, top-right, bottom-left, bottom-right, center, then the same 5
crops flipped along the HEIGHT axis (vertical mirror, image[:5, ::-1] on
the 4-D batch), not the width axis: crop c+5 equals flipVertical of crop c
for every c < 5. -/
theorem oversample_mirror_vertical (image : Img) (hh : image.h = 256)
    (hw : image.w = 256) (hc : image.c = 3) :
    (oversample image false).length = 10 ∧
    (oversample image false).get! 0 = cropAt image 0 0 ∧
    (oversample image false).get! 1 = cropAt image 0 29 ∧
    (oversample image false).get! 2 = cropAt image 29 0 ∧
    (oversample image false).get! 3 = cropAt image 29 29 ∧
    (oversample image false).get! 4 = cropAt image 14 14 ∧
    (∀ c, c < 5 → (oversample image false).get! (c + 5) =
      flipVertical ((oversample image false).get! c)) := by
  refine ⟨rfl, rfl, rfl, rfl, rfl, rfl, ?_⟩
  intro c hc5
  interval_cases c <;> rfl

/-- C2 amended witness at a concrete 256x256x3 image and c = 0. -/
theorem oversample_mirror_vertical_witness :
    (oversample rampImg false).get! (0 + 5) =
      flipVertical ((oversample rampImg false).get! 0) :=
  (oversample_mirror_vertical rampImg rfl rfl rfl).2.2.2.2.2.2 0 (by decide)

/-- C8: aggregation is the elementwise arithmetic mean over the per-crop
score vectors, and aggregating 10 identical score vectors returns that same
vector unchanged. -/
theorem aggregate_mean_and_idempotent :
    (∀ (predictions : List (List ℚ)) (j : Nat),
      j < predictions.head!.length →
      (aggregate predictions).get! j =
        (predictions.map (fun row => row.get! j)).sum /
          (predictions.length : ℚ)) ∧
    (∀ v : List ℚ, aggregate (List.replicate 10 v) = v) := by
  constructor
  · intro predictions j hj
    unfold aggregate
    rw [List.get!_eq_getD, List.getD_eq_getElem _ _
      (by simpa using hj), List.getElem_map, List.getElem_range]
  · intro v
    unfold aggregate
    have hhead : (List.replicate 10 v).head! = v := rfl
    have hlen : (List.replicate 10 v).length = 10 := rfl
    rw [hhead, hlen]
    apply List.ext_getElem
    · simp
    · intro i h1 h2
      rw [List.getElem_map, List.getElem_range, List.map_replicate,
        List.sum_replicate]
      have hv : v.get! i = v[i] := by
        rw [List.get!_eq_getD, List.getD_eq_getElem]
      rw [hv]
      push_cast
      ring_nf

/-- C8 witness: the elementwise mean formula applied to the concrete batch
[[5]] at index 0. -/
theorem aggregate_mean_and_idempotent_witness :
    (aggregate [[(5 : ℚ)]]).get! 0 =
      (([[(5 : ℚ)]].map (fun row => row.get! 0)).sum / (([[(5 : ℚ)]].length : Nat) : ℚ)) :=
  aggregate_mean_and_idempotent.1 [[(5 : ℚ)]] 0 (by decide)

/-- C1 counterexample: top_k_prediction performs no range check on k.  On a
concrete 1000-element score vector it returns the empty result at k = 0 and
a 1000-element index list at k = 1001, instead of failing. -/
theorem top_k_no_out_of_range_error :
    top_k_prediction labels1000 scores1000 0 = ([], []) ∧
    ((top_k_prediction labels1000 scores1000 1001).1).length = 1000 := by
  constructor
  · rfl
  · show ((argsort scores1000).reverse.take 1001).length = 1000
    rw [List.length_take, List.length_reverse]
    unfold argsort
    rw [List.length_mergeSort, List.length_range]
    have : scores1000.length = 1000 := by
      unfold scores1000
      rw [List.length_map, List.length_range]
    rw [this]
    norm_num

/-- C1 amended: k is not validated.  For every 1000-element score vector,
k = 0 returns the empty index and name lists and k = 1001 returns all 1000
indices; no exception path exists in top_k_prediction. -/
theorem top_k_out_of_range_returns (label_names : List String)
    (scores : List ℚ) (hlen : scores.length = 1000) :
    top_k_prediction label_names scores 0 = ([], []) ∧
    ((top_k_prediction label_names scores 1001).1).length = 1000 := by
  constructor
  · rfl
  · show ((argsort scores).reverse.take 1001).length = 1000
    rw [List.length_take, List.length_reverse]
    unfold argsort
    rw [List.length_mergeSort, List.length_range, hlen]
    norm_num

/-- C1 amended witness at the concrete 1000-element score vector. -/
theorem top_k_out_of_range_returns_witness :
    top_k_prediction labels1000 scores1000 0 = ([], []) :=
  (top_k_out_of_range_returns labels1000 scores1000
    (by unfold scores1000; rw [List.length_map, List.length_range])).1

/-- Helper: argsort returns a permutation of the index range. -/
theorem argsort_perm_range (scores : List ℚ) :
    (argsort scores).Perm (List.range scores.length) :=
  List.mergeSort_perm _ _

/-- Helper: argsort is ascending in the scores. -/
theorem argsort_sorted (scores : List ℚ) :
    (argsort scores).Pairwise (fun i j => scores.get! i ≤ scores.get! j) := by
  have h := @List.sorted_mergeSort Nat
    (fun i j => decide (scores.get! i ≤ scores.get! j))
    (fun a b c hab hbc => by
      simp only [decide_eq_true_eq] at *
      exact le_trans hab hbc)
    (fun a b => by
      simp only [Bool.or_eq_true, decide_eq_true_eq]
      exact le_total _ _)
    (List.range scores.length)
  exact h.imp (fun hab => by simpa using hab)

/-- Helper: the reversed argsort is descending in the scores. -/
theorem argsort_reverse_desc (scores : List ℚ) :
    ((argsort scores).reverse).Pairwise
      (fun i j => scores.get! j ≤ scores.get! i) :=
  List.pairwise_reverse.mpr (argsort_sorted scores)

/-- Helper: length of the reversed argsort. -/
theorem argsort_reverse_length (scores : List ℚ) :
    (argsort scores).reverse.length = scores.length := by
  rw [List.length_reverse]
  unfold argsort
  rw [List.length_mergeSort, List.length_range]

/-- C7: for a 1000-element score vector and 1 <= k <= 1000,
top_k_prediction returns exactly k distinct indices below 1000 whose scores
all dominate the scores of the non-returned indices, and the p-th returned
name is label_names at the p-th returned index. -/
theorem top_k_in_range_correct (label_names : List String) (scores : List ℚ)
    (k : Nat) (hlen : scores.length = 1000) (hk1 : 1 ≤ k) (hk2 : k ≤ 1000) :
    ((top_k_prediction label_names scores k).1).length = k ∧
    ((top_k_prediction label_names scores k).1).Nodup ∧
    (∀ i ∈ (top_k_prediction label_names scores k).1, i < 1000) ∧
    (∀ i ∈ (top_k_prediction label_names scores k).1, ∀ j < 1000,
      j ∉ (top_k_prediction label_names scores k).1 →
      scores.get! j ≤ scores.get! i) ∧
    (∀ p, p < k → ((top_k_prediction label_names scores k).2).get! p =
      label_names.get! (((top_k_prediction label_names scores k).1).get! p)) := by
  have hrevlen : (argsort scores).reverse.length = 1000 := by
    rw [argsort_reverse_length, hlen]
  have hperm : ((argsort scores).reverse).Perm (List.range 1000) := by
    have h2 := argsort_perm_range scores
    rw [hlen] at h2
    exact (List.reverse_perm _).trans h2
  have hfst : (top_k_prediction label_names scores k).1 =
      (argsort scores).reverse.take k := rfl
  have hlentake : ((argsort scores).reverse.take k).length = k := by
    rw [List.length_take, hrevlen]
    omega
  refine ⟨by rw [hfst, hlentake], ?_, ?_, ?_, ?_⟩
  · rw [hfst]
    exact (List.take_sublist _ _).nodup
      (hperm.nodup_iff.mpr (List.nodup_range 1000))
  · intro i hi
    rw [hfst] at hi
    have : i ∈ (argsort scores).reverse := List.take_subset _ _ hi
    exact List.mem_range.mp (hperm.mem_iff.mp this)
  · intro i hi j hj hjn
    rw [hfst] at hi hjn
    have hjrev : j ∈ (argsort scores).reverse :=
      hperm.mem_iff.mpr (List.mem_range.mpr hj)
    have hsplit := List.take_append_drop k ((argsort scores).reverse)
    have hpw := argsort_reverse_desc scores
    rw [← hsplit] at hpw
    have h3 := (List.pairwise_append.mp hpw).2.2
    rw [← hsplit, List.mem_append] at hjrev
    rcases hjrev with hjt | hjd
    · exact absurd hjt hjn
    · exact h3 i hi j hjd
  · intro p hp
    have hplt : p < (((top_k_prediction label_names scores k).1).map
        (fun i => label_names.get! i)).length := by
      rw [List.length_map, hfst, hlentake]
      exact hp
    have hsnd : (top_k_prediction label_names scores k).2 =
        ((top_k_prediction label_names scores k).1).map
          (fun i => label_names.get! i) := rfl
    rw [hsnd, List.get!_eq_getD, List.getD_eq_getElem _ _ hplt,
      List.getElem_map]
    congr 1
    rw [List.get!_eq_getD, List.getD_eq_getElem]

/-- C9: top_k_prediction raises nothing out of range: k = 0 yields the
empty index and name lists, and any k > 1000 on a 1000-element score vector
yields all 1000 indices in descending-score order, with the names mapped
from the indices. -/
theorem top_k_overrange_descending (label_names : List String)
    (scores : List ℚ) (k : Nat) (hlen : scores.length = 1000)
    (hk : 1000 < k) :
    top_k_prediction label_names scores 0 = ([], []) ∧
    ((top_k_prediction label_names scores k).1).Perm (List.range 1000) ∧
    ((top_k_prediction label_names scores k).1).Pairwise
      (fun i j => scores.get! j ≤ scores.get! i) ∧
    (top_k_prediction label_names scores k).2 =
      ((top_k_prediction label_names scores k).1).map
        (fun i => label_names.get! i) := by
  have hrevlen : (argsort scores).reverse.length = 1000 := by
    rw [argsort_reverse_length, hlen]
  have htake : (argsort scores).reverse.take k = (argsort scores).reverse :=
    List.take_of_length_le (by rw [hrevlen]; omega)
  have hfst : (top_k_prediction label_names scores k).1 =
      (argsort scores).reverse := by
    show (argsort scores).reverse.take k = _
    rw [htake]
  refine ⟨rfl, ?_, ?_, rfl⟩
  · rw [hfst]
    have h2 := argsort_perm_range scores
    rw [hlen] at h2
    exact (List.reverse_perm _).trans h2
  · rw [hfst]
    exact argsort_reverse_desc scores

/-- C7 witness at a concrete 1000-element score vector and k = 1. -/
theorem top_k_in_range_correct_witness :
    ((top_k_prediction labels1000 scores1000 1).1).length = 1 :=
  (top_k_in_range_correct labels1000 scores1000 1
    (by unfold scores1000; rw [List.length_map, List.length_range])
    (by decide) (by decide)).1

/-- C9 witness at a concrete 1000-element score vector and k = 1001. -/
theorem top_k_overrange_descending_witness :
    ((top_k_prediction labels1000 scores1000 1001).1).Perm (List.range 1000) :=
  (top_k_overrange_descending labels1000 scores1000 1001
    (by unfold scores1000; rw [List.length_map, List.length_range])
    (by decide)).2.1

/-- C3 counterexample: with a corrupt (undeserializable) weights source the
initializer does not fail with the RuntimeError raised for missing files
(the ModelLoadError of the spec); the UnpicklingError propagates unchanged
because the try block only catches IOError. -/
theorem jeffnetInit_corrupt_not_model_load_error :
    jeffnetInit (fun u : Unit => u) (fun _ : Unit => default)
      LoadSource.corruptData (LoadSource.ok ⟨[], ()⟩) =
      Except.error PyErr.unpicklingError ∧
    PyErr.unpicklingError ≠ PyErr.runtimeError "Cannot find JeffNet files." :=
  ⟨rfl, by decide⟩

/-- C3 amended: initialization never yields a model from an unreadable
source, but the error differs by failure mode: a missing file (IOError) on
either source is caught and re-raised as RuntimeError, i.e. the spec
ModelLoadError, while corrupt data propagates the UnpicklingError
unchanged.  A model is constructed only when both sources deserialize. -/
theorem jeffnetInit_errors {CN N M : Type} (translate_cuda_network : CN → N)
    (img_cudaconv_to_decaf : M → Img)
    (netSrc : LoadSource CN) (metaSrc : LoadSource (MetaBlob M)) :
    (netSrc = .missingFile →
      jeffnetInit translate_cuda_network img_cudaconv_to_decaf netSrc metaSrc =
        .error (.runtimeError "Cannot find JeffNet files.")) ∧
    (∀ cn, netSrc = .ok cn → metaSrc = .missingFile →
      jeffnetInit translate_cuda_network img_cudaconv_to_decaf netSrc metaSrc =
        .error (.runtimeError "Cannot find JeffNet files.")) ∧
    (netSrc = .corruptData →
      jeffnetInit translate_cuda_network img_cudaconv_to_decaf netSrc metaSrc =
        .error .unpicklingError) ∧
    (∀ cn, netSrc = .ok cn → metaSrc = .corruptData →
      jeffnetInit translate_cuda_network img_cudaconv_to_decaf netSrc metaSrc =
        .error .unpicklingError) ∧
    (∀ model, jeffnetInit translate_cuda_network img_cudaconv_to_decaf
        netSrc metaSrc = .ok model →
      (∃ cn, netSrc = .ok cn) ∧ (∃ mb, metaSrc = .ok mb)) := by
  cases netSrc <;> cases metaSrc <;>
    simp [jeffnetInit, pickleLoad]

/-- C3 amended witness: a missing weights file yields the RuntimeError. -/
theorem jeffnetInit_errors_witness :
    jeffnetInit (fun u : Unit => u) (fun _ : Unit => (default : Img))
      LoadSource.missingFile (LoadSource.ok ⟨[], ()⟩) =
      Except.error (PyErr.runtimeError "Cannot find JeffNet files.") :=
  (jeffnetInit_errors (fun u : Unit => u) (fun _ : Unit => (default : Img))
    LoadSource.missingFile (LoadSource.ok ⟨[], ()⟩)).1 rfl

/-- Helper: for a nonempty image both newshape dimensions are at least 256. -/
theorem newshape_ge_256 (height width : Nat) (h1 : 1 ≤ height)
    (w1 : 1 ≤ width) :
    256 ≤ (newshape height width).1 ∧ 256 ≤ (newshape height width).2 := by
  unfold newshape
  split
  case isTrue hlt =>
    refine ⟨le_refl _, ?_⟩
    have hposq : (0 : ℚ) < height := by exact_mod_cast h1
    have hle : (height : ℚ) ≤ width := by exact_mod_cast Nat.le_of_lt hlt
    have hq : (256 : ℚ) ≤ (width * 256 : ℚ) / height := by
      rw [le_div_iff₀ hposq]
      nlinarith
    have hfl : (256 : ℤ) ≤ ⌊(width * 256 : ℚ) / height + 1/2⌋ := by
      apply Int.le_floor.mpr
      push_cast
      linarith
    exact (Int.le_toNat (le_trans (by norm_num) hfl)).mpr hfl
  case isFalse hge =>
    refine ⟨?_, le_refl _⟩
    have hposq : (0 : ℚ) < width := by exact_mod_cast w1
    have hle : (width : ℚ) ≤ height := by
      exact_mod_cast Nat.le_of_not_lt hge
    have hq : (256 : ℚ) ≤ (height * 256 : ℚ) / width := by
      rw [le_div_iff₀ hposq]
      nlinarith
    have hfl : (256 : ℤ) ≤ ⌊(height * 256 : ℚ) / width + 1/2⌋ := by
      apply Int.le_floor.mpr
      push_cast
      linarith
    exact (Int.le_toNat (le_trans (by norm_num) hfl)).mpr hfl

/-- Helper: the center crop of an image at least 256 in both spatial
dimensions has spatial shape exactly 256x256 and the same channel count. -/
theorem centerCrop256_shape (image : Img) (hh : 256 ≤ image.h)
    (hw : 256 ≤ image.w) :
    (centerCrop256 image).h = 256 ∧ (centerCrop256 image).w = 256 ∧
    (centerCrop256 image).c = image.c := by
  unfold centerCrop256
  refine ⟨?_, ?_, rfl⟩
  · have : (image.h - 256) / 2 ≤ image.h - 256 := Nat.div_le_self _ _
    simp only
    omega
  · have : (image.w - 256) / 2 ≤ image.w - 256 := Nat.div_le_self _ _
    simp only
    omega

/-- Helper: for any shape-correct resize and a 256x256x3 mean image, when
the channel handling yields a 3-channel image the preprocessing succeeds
(the mean broadcasts exactly) and returns a 256x256x3 image. -/
theorem classifyPreprocess_shape_core (R : Img → Nat × Nat → Img)
    (hR : ResizeSpec R) (data_mean : Img) (hmh : data_mean.h = 256)
    (hmw : data_mean.w = 256) (hmc : data_mean.c = 3) (input : InputImage)
    (h1 : 1 ≤ (channelAdjust input).h) (w1 : 1 ≤ (channelAdjust input).w)
    (hc3 : (channelAdjust input).c = 3) :
    exceptShape (classifyPreprocess R data_mean input) =
      some (256, 256, 3) := by
  obtain ⟨rh, rw2, rc⟩ := hR (channelAdjust input)
    (newshape (channelAdjust input).h (channelAdjust input).w)
  have hge := newshape_ge_256 _ _ h1 w1
  have hcc := centerCrop256_shape
    (flipVertical (rescale255 (R (channelAdjust input)
      (newshape (channelAdjust input).h (channelAdjust input).w))))
    (by simpa [flipVertical, rescale255, rh] using hge.1)
    (by simpa [flipVertical, rescale255, rw2] using hge.2)
  have hXc : (centerCrop256 (flipVertical (rescale255 (R (channelAdjust input)
      (newshape (channelAdjust input).h (channelAdjust input).w))))).c = 3 := by
    rw [hcc.2.2]
    simpa [flipVertical, rescale255] using rc.trans hc3
  have hstep : classifyPreprocess R data_mean input =
      subtractMean (centerCrop256 (flipVertical (rescale255
        (R (channelAdjust input)
          (newshape (channelAdjust input).h (channelAdjust input).w)))))
        data_mean := rfl
  rw [hstep]
  unfold subtractMean
  rw [if_pos ⟨Or.inl (by rw [hmh, hcc.1]), Or.inl (by rw [hmw, hcc.2.1]),
    Or.inl (by rw [hmc, hXc])⟩]
  simp only [exceptShape]
  rw [hcc.1, hcc.2.1, hXc]

/-- Helper: when the channel handling leaves a single channel and the mean
image has 3 channels, the channel count survives resize, rescale, flip and
crop, so the in-place mean subtraction cannot broadcast and the
preprocessing raises a ValueError. -/
theorem classifyPreprocess_single_channel_error (R : Img → Nat × Nat → Img)
    (hR : ResizeSpec R) (data_mean : Img) (hmc : data_mean.c = 3)
    (input : InputImage) (hc1 : (channelAdjust input).c = 1) :
    classifyPreprocess R data_mean input = .error .valueError := by
  have rc := (hR (channelAdjust input)
    (newshape (channelAdjust input).h (channelAdjust input).w)).2.2
  have hXc : (centerCrop256 (flipVertical (rescale255 (R (channelAdjust input)
      (newshape (channelAdjust input).h (channelAdjust input).w))))).c = 1 := by
    show (R (channelAdjust input)
      (newshape (channelAdjust input).h (channelAdjust input).w)).c = 1
    rw [rc, hc1]
  have hstep : classifyPreprocess R data_mean input =
      subtractMean (centerCrop256 (flipVertical (rescale255
        (R (channelAdjust input)
          (newshape (channelAdjust input).h (channelAdjust input).w)))))
        data_mean := rfl
  rw [hstep]
  unfold subtractMean
  split
  case isTrue hcond =>
    exfalso
    rcases hcond.2.2 with hx | hx
    · rw [hmc, hXc] at hx
      omega
    · rw [hmc] at hx
      omega
  case isFalse hcond => rfl

/-- C4 amended: with any shape-correct resize and the 256x256x3 mean image,
preprocessing a 2-D grayscale, a 3-channel, or a 4-channel input succeeds
and yields shape exactly 256x256x3 (grayscale is replicated to 3 identical
channels, the 4th channel is dropped, 3-channel input passes through
unchanged); but a 3-D single-channel HxWx1 input is NOT converted: it
reaches the in-place mean subtraction with one channel, the 256x256x3 mean
cannot broadcast into it, and the pipeline raises a ValueError, so no
canonical array is produced at all. -/
theorem classify_channel_shape (R : Img → Nat × Nat → Img)
    (hR : ResizeSpec R) (data_mean : Img) (hmh : data_mean.h = 256)
    (hmw : data_mean.w = 256) (hmc : data_mean.c = 3) :
    (∀ (hgt wdt : Nat) (px : Nat → Nat → ℚ), 1 ≤ hgt → 1 ≤ wdt →
      exceptShape (classifyPreprocess R data_mean (.gray hgt wdt px)) =
        some (256, 256, 3)) ∧
    (∀ image : Img, 1 ≤ image.h → 1 ≤ image.w → (image.c = 3 ∨ image.c = 4) →
      exceptShape (classifyPreprocess R data_mean (.multi image)) =
        some (256, 256, 3)) ∧
    (∀ image : Img, image.c = 1 →
      classifyPreprocess R data_mean (.multi image) = .error .valueError) ∧
    (∀ (hgt wdt : Nat) (px : Nat → Nat → ℚ) (i j k1 k2 : Nat),
      (channelAdjust (.gray hgt wdt px)).c = 3 ∧
      (channelAdjust (.gray hgt wdt px)).px i j k1 =
        (channelAdjust (.gray hgt wdt px)).px i j k2) ∧
    (∀ image : Img, image.c = 4 →
      channelAdjust (.multi image) = ⟨image.h, image.w, 3, image.px⟩) ∧
    (∀ image : Img, image.c = 3 → channelAdjust (.multi image) = image) := by
  have hgrayc : ∀ (hgt wdt : Nat) (px : Nat → Nat → ℚ),
      channelAdjust (.gray hgt wdt px) = ⟨hgt, wdt, 3, fun i j _ => px i j⟩ :=
    fun _ _ _ => rfl
  have hc4 : ∀ image : Img, image.c = 4 →
      channelAdjust (.multi image) = ⟨image.h, image.w, 3, image.px⟩ := by
    intro image h4
    simp [channelAdjust, h4]
  have hc3 : ∀ image : Img, image.c ≠ 4 →
      channelAdjust (.multi image) = image := by
    intro image h3
    simp [channelAdjust, h3]
  refine ⟨?_, ?_, ?_, ?_, hc4, fun image h3 => hc3 image (by omega)⟩
  · intro hgt wdt px hh hw
    exact classifyPreprocess_shape_core R hR data_mean hmh hmw hmc
      (.gray hgt wdt px) (by rw [hgrayc]; exact hh)
      (by rw [hgrayc]; exact hw) (by rw [hgrayc])
  · intro image hh hw hc34
    rcases hc34 with h3 | h4
    · have heq := hc3 image (by omega)
      exact classifyPreprocess_shape_core R hR data_mean hmh hmw hmc
        (.multi image) (by rw [heq]; exact hh) (by rw [heq]; exact hw)
        (by rw [heq]; exact h3)
    · have heq := hc4 image h4
      exact classifyPreprocess_shape_core R hR data_mean hmh hmw hmc
        (.multi image) (by rw [heq]; exact hh) (by rw [heq]; exact hw)
        (by rw [heq])
  · intro image hc1
    have heq := hc3 image (by omega)
    exact classifyPreprocess_single_channel_error R hR data_mean hmc
      (.multi image) (by rw [heq]; exact hc1)
  · intro hgt wdt px i j k1 k2
    exact ⟨rfl, rfl⟩

/-- Helper: the concrete resize stand-in is shape-correct. -/
theorem resizeNN_spec : ResizeSpec resizeNN :=
  fun image s => ⟨rfl, rfl, rfl⟩

/-- C4 counterexample: on a concrete 256x256x1 single-channel input the
preprocessing produces no 256x256x3 canonical array at all: the single
channel survives untouched to the in-place mean subtraction, the 256x256x3
mean cannot broadcast into the (256,256,1) output operand, and the
pipeline raises a ValueError. -/
theorem classify_single_channel_value_error :
    classifyPreprocess resizeNN zeroMean (.multi singleChannelImg) =
      Except.error PyErr.valueError ∧
    exceptShape (classifyPreprocess resizeNN zeroMean
      (.multi singleChannelImg)) ≠ some (256, 256, 3) := by
  have herr : classifyPreprocess resizeNN zeroMean (.multi singleChannelImg) =
      Except.error PyErr.valueError :=
    classifyPreprocess_single_channel_error resizeNN resizeNN_spec zeroMean
      rfl (.multi singleChannelImg) rfl
  refine ⟨herr, ?_⟩
  rw [herr]
  simp [exceptShape]

/-- C5: the resize target shape maps the shorter spatial dimension to
exactly 256 and the other to round(dim * 256 / other_dim) with round the
nearest-integer rounding (int(x + 0.5) equals Mathlib round on nonnegative
values), and the resized pixels are rescaled by the factor 255 back to the
0-255 range (values in [0,1) land in [0,255)). -/
theorem newshape_round_and_rescale :
    (∀ (hgt wdt : Nat), 1 ≤ hgt → 1 ≤ wdt →
      (hgt ≤ wdt → newshape hgt wdt =
        (256, (round ((wdt * 256 : ℚ) / hgt)).toNat)) ∧
      (wdt ≤ hgt → newshape hgt wdt =
        ((round ((hgt * 256 : ℚ) / wdt)).toNat, 256))) ∧
    (∀ (image : Img) (i j k : Nat),
      (rescale255 image).px i j k = image.px i j k * 255) ∧
    (∀ (image : Img) (i j k : Nat), 0 ≤ image.px i j k →
      image.px i j k < 1 →
      0 ≤ (rescale255 image).px i j k ∧ (rescale255 image).px i j k < 255) := by
  have hsq : ∀ n : Nat, 1 ≤ n → ((n : ℚ) * 256) / n = 256 := by
    intro n h1
    have hn : (n : ℚ) ≠ 0 := Nat.cast_ne_zero.mpr (by omega)
    field_simp
  have h256 : (⌊(256 : ℚ) + 1/2⌋).toNat = 256 := by
    norm_num
    rfl
  have hr256 : (round ((256 : ℚ))).toNat = 256 := by
    norm_num [round_eq]
    rfl
  refine ⟨?_, fun image i j k => rfl, ?_⟩
  · intro hgt wdt h1 w1
    constructor
    · intro hle
      rcases Nat.lt_or_ge hgt wdt with hlt | hge
      · unfold newshape
        rw [if_pos hlt, round_eq]
      · have heq : hgt = wdt := le_antisymm hle hge
        subst heq
        unfold newshape
        rw [if_neg (lt_irrefl hgt), hsq hgt h1, h256, hr256]
    · intro hle
      rcases Nat.lt_or_ge hgt wdt with hlt | hge
      · have heq : hgt = wdt := le_antisymm (Nat.le_of_lt hlt) hle
        subst heq
        unfold newshape
        rw [if_neg (lt_irrefl hgt), hsq hgt h1, h256, hr256]
      · have hnlt : ¬ hgt < wdt := Nat.not_lt.mpr hle
        unfold newshape
        rw [if_neg hnlt, round_eq]
  · intro image i j k h0 h1
    constructor
    · show 0 ≤ image.px i j k * 255
      positivity
    · show image.px i j k * 255 < 255
      nlinarith

/-- C5 witness at the concrete shape 2x3. -/
theorem newshape_round_and_rescale_witness :
    newshape 2 3 = (256, (round ((3 * 256 : ℚ) / 2)).toNat) :=
  ((newshape_round_and_rescale.1 2 3 (by decide) (by decide)).1 (by decide))

/-- C4 amended witness: a concrete 256x256x3 input succeeds with shape
exactly 256x256x3. -/
theorem classify_channel_shape_witness :
    exceptShape (classifyPreprocess resizeNN zeroMean (.multi rampImg)) =
      some (256, 256, 3) :=
  (classify_channel_shape resizeNN resizeNN_spec zeroMean rfl rfl rfl).2.1
    rampImg (by decide) (by decide) (Or.inl rfl)
